import Mathlib

/-!
Verification of the Stripe catalog synchronization script (`syncStripe.js`).

The script is a one-shot ETL batch job: it authenticates to Stripe with a
credential read from the environment, fetches the first page of active
products and active prices, validates both lists are non-empty, wipes both
destination tables, re-inserts the fetched records one by one (catching and
logging per-record failures), prints row counts, and exits 0 on success or
1 on any fatal error.

The shallow embedding below models:
  - the incoming Stripe records (`StripeProductData`, `StripePriceData`),
    with JavaScript null/undefined represented as `Option`;
  - JavaScript truthiness on the fields where the script uses `||` and the
    conditional operator (`strTruthy`, `intTruthy`);
  - the destination row types produced by `prisma.stripeProduct.create` and
    `prisma.stripePrice.create` (`ProductRow`, `PriceRow`), with field
    construction factored into `buildProductRow` / `buildPriceRow`
    (`buildProductRow` returns `none` when evaluating the row throws — the
    script reads `data.images.length` without a guard, so an absent
    `images` field raises a TypeError inside the per-record try block);
  - the database as the lists of rows of the two tables (`DB`);
  - per-record insertion outcomes as oracles `pErr` / `prErr` (a `true`
    result models `prisma...create` throwing for that record);
  - the observable actions of a run as an event trace (`Event`);
  - the whole run as the pure function `sync`, returning the exit code,
    the final database, the event trace, the error message printed by the
    catch block (if any), and the two counts printed by `printStats`.
-/

/-- JavaScript truthiness of a string-or-null/undefined value:
`undefined`, `null` and the empty string are falsy. -/
def strTruthy : Option String → Bool
  | none => false
  | some s => s ≠ ""

/-- JavaScript truthiness of a number-or-null/undefined value:
`undefined`, `null` and `0` are falsy. -/
def intTruthy : Option Int → Bool
  | none => false
  | some n => n ≠ 0

/-- A Stripe product feature object; the script keeps only its `name`. -/
structure StripeFeature where
  name : String
  deriving Repr, DecidableEq

/-- A fetched Stripe product record, with the fields the script reads.
Fields that may be `null`/`undefined` in the API payload are `Option`. -/
structure StripeProductData where
  id : String
  description : Option String
  features : Option (List StripeFeature)
  images : Option (List String)
  metadata : List (String × String)
  name : String
  unit_label : Option String
  created : Int
  deriving Repr, DecidableEq

/-- A fetched Stripe price record, with the fields the script reads. -/
structure StripePriceData where
  id : String
  billing_scheme : String
  created : Int
  currency : String
  custom_unit_amount : Option Int
  livemode : Bool
  lookup_key : Option String
  metadata : List (String × String)
  nickname : Option String
  product : String
  recurring : Option String
  tiers_mode : Option String
  type : String
  unit_amount : Option Int
  unit_amount_decimal : Option String
  deriving Repr, DecidableEq

/-- A destination `StripeProduct` row as built by `seedProducts`. -/
structure ProductRow where
  id : String
  description : String
  features : List String
  image : String
  metadata : List (String × String)
  name : String
  unitLabel : Option String
  created : Int
  deriving Repr, DecidableEq

/-- A destination `StripePrice` row as built by `seedPrices`. -/
structure PriceRow where
  id : String
  billingScheme : String
  created : Int
  currency : String
  customUnitAmount : Option String
  livemode : Bool
  lookupKey : Option String
  metadata : List (String × String)
  nickname : Option String
  productId : String
  recurring : Option String
  tiersMode : String
  type : String
  unitAmount : Option String
  unitAmountDecimal : Option String
  deriving Repr, DecidableEq

/-- The destination store: the rows of the two tables, in insertion order. -/
structure DB where
  products : List ProductRow
  prices : List PriceRow
  deriving Repr, DecidableEq

/-- Builds the argument of `prisma.stripeProduct.create` from a fetched
product. Returns `none` when the construction itself throws: the script
evaluates `data.images.length` with no default, so an absent `images`
field raises a TypeError before the insert is attempted. All other
accesses are guarded (`data.description || ''`, `data.features || []`). -/
def buildProductRow (d : StripeProductData) : Option ProductRow :=
  match d.images with
  | none => none
  | some imgs =>
    some
      { id := d.id
        description := if strTruthy d.description then d.description.getD "" else ""
        features := (d.features.getD []).map (fun a => a.name)
        image := if imgs.length > 0 then imgs.headD "" else ""
        metadata := d.metadata
        name := d.name
        unitLabel := d.unit_label
        created := d.created * 1000 }

/-- Builds the argument of `prisma.stripePrice.create` from a fetched
price. Every access in the script is guarded by a conditional or is a
plain field pass-through, so the construction never throws. The
conditional operator on `custom_unit_amount`, `tiers_mode` and
`unit_amount` uses JavaScript truthiness. -/
def buildPriceRow (d : StripePriceData) : PriceRow :=
  { id := d.id
    billingScheme := d.billing_scheme
    created := d.created * 1000
    currency := d.currency
    customUnitAmount :=
      if intTruthy d.custom_unit_amount
      then some (toString (d.custom_unit_amount.getD 0)) else none
    livemode := d.livemode
    lookupKey := d.lookup_key
    metadata := d.metadata
    nickname := d.nickname
    productId := d.product
    recurring := d.recurring
    tiersMode := if strTruthy d.tiers_mode then d.tiers_mode.getD "" else ""
    type := d.type
    unitAmount :=
      if intTruthy d.unit_amount
      then some (toString (d.unit_amount.getD 0)) else none
    unitAmountDecimal := d.unit_amount_decimal }

/-- An observable action of a run, in program order. Inserts record only
the successful `create` calls; a throwing insert leaves no event and no
row, matching the per-record catch block. -/
inductive Event where
  | fetch : Event
  | deletePrices : Event
  | deleteProducts : Event
  | insertProduct : ProductRow → Event
  | insertPriceRow : PriceRow → Event
  | countProducts : Nat → Event
  | countPrices : Nat → Event
  deriving Repr, DecidableEq

/-- `getStripeInstance`: returns a client when `STRIPE_SECRET_KEY` is
truthy in the environment, otherwise throws. The client itself carries no
state the rest of the model needs, so success is `Unit`. -/
def getStripeInstance (env : Option String) : Except String Unit :=
  if strTruthy env then Except.ok ()
  else Except.error "STRIPE_SECRET_KEY environment variable not set"

/-- `cleanup`: deletes all prices, then all products. -/
def cleanup (db : DB) : DB × List Event :=
  let db1 : DB := { db with prices := [] }
  let db2 : DB := { db1 with products := [] }
  (db2, [Event.deletePrices, Event.deleteProducts])

/-- `seedProducts`: for each fetched product in order, builds the row and
inserts it; a throw while building the row (absent `images`) or while
inserting (the `pErr` oracle) is caught and logged and the loop moves on. -/
def seedProducts (ps : List StripeProductData) (pErr : StripeProductData → Bool)
    (db : DB) : DB × List Event :=
  match ps with
  | [] => (db, [])
  | d :: rest =>
    match buildProductRow d with
    | none => seedProducts rest pErr db
    | some row =>
      if pErr d then seedProducts rest pErr db
      else
        let r := seedProducts rest pErr { db with products := db.products ++ [row] }
        (r.1, Event.insertProduct row :: r.2)

/-- `seedPrices`: for each fetched price in order, builds the row and
inserts it; a throwing insert (the `prErr` oracle) is caught and logged
and the loop moves on. -/
def seedPrices (ps : List StripePriceData) (prErr : StripePriceData → Bool)
    (db : DB) : DB × List Event :=
  match ps with
  | [] => (db, [])
  | d :: rest =>
    if prErr d then seedPrices rest prErr db
    else
      let row := buildPriceRow d
      let r := seedPrices rest prErr { db with prices := db.prices ++ [row] }
      (r.1, Event.insertPriceRow row :: r.2)

/-- `printStats`: the two row counts queried from the destination store. -/
def printStats (db : DB) : Nat × Nat :=
  (db.products.length, db.prices.length)

/-- The outcome of one run of the script. -/
structure SyncResult where
  exitCode : Nat
  db : DB
  log : List Event
  errorMsg : Option String
  productCount : Option Nat
  priceCount : Option Nat
  deriving Repr, DecidableEq

/-- `sync`: one run of the script. `env` is the value of the
`STRIPE_SECRET_KEY` environment variable; `products` and `prices` are the
lists fetched from Stripe; `pErr` and `prErr` give each record its
insertion outcome; `db0` is the destination store before the run. -/
def sync (env : Option String) (products : List StripeProductData)
    (prices : List StripePriceData)
    (pErr : StripeProductData → Bool) (prErr : StripePriceData → Bool)
    (db0 : DB) : SyncResult :=
  match getStripeInstance env with
  | Except.error e =>
    { exitCode := 1, db := db0, log := [], errorMsg := some e,
      productCount := none, priceCount := none }
  | Except.ok _ =>
    if prices.length > 0 && products.length > 0 then
      let c := cleanup db0
      let sp := seedProducts products pErr c.1
      let spr := seedPrices prices prErr sp.1
      let stats := printStats spr.1
      { exitCode := 0, db := spr.1,
        log := Event.fetch :: c.2 ++ sp.2 ++ spr.2
               ++ [Event.countProducts stats.1, Event.countPrices stats.2],
        errorMsg := none,
        productCount := some stats.1, priceCount := some stats.2 }
    else if prices.length == 0 then
      { exitCode := 1, db := db0, log := [Event.fetch],
        errorMsg := some "No prices found on Stripe",
        productCount := none, priceCount := none }
    else
      { exitCode := 1, db := db0, log := [Event.fetch],
        errorMsg := some "No products found on Stripe",
        productCount := none, priceCount := none }

/-- The outcome of attempting to insert one fetched product: `none` when
the row construction throws (absent `images`) or the insert itself throws
(`pErr`), `some row` when the row ends up in the destination table. -/
def productInsertOutcome (pErr : StripeProductData → Bool)
    (d : StripeProductData) : Option ProductRow :=
  match buildProductRow d with
  | none => none
  | some row => if pErr d then none else some row

/-- The rows inserted by `seedProducts` for a fetched list, in order. -/
def successfulProducts (ps : List StripeProductData)
    (pErr : StripeProductData → Bool) : List ProductRow :=
  ps.filterMap (productInsertOutcome pErr)

/-- The outcome of attempting to insert one fetched price: `none` when the
insert throws (`prErr`), `some row` otherwise. -/
def priceInsertOutcome (prErr : StripePriceData → Bool)
    (d : StripePriceData) : Option PriceRow :=
  if prErr d then none else some (buildPriceRow d)

/-- The rows inserted by `seedPrices` for a fetched list, in order. -/
def successfulPrices (ps : List StripePriceData)
    (prErr : StripePriceData → Bool) : List PriceRow :=
  ps.filterMap (priceInsertOutcome prErr)

theorem seedProducts_eq (ps : List StripeProductData)
    (pErr : StripeProductData → Bool) (db : DB) :
    seedProducts ps pErr db =
      ({ db with products := db.products ++ successfulProducts ps pErr },
       (successfulProducts ps pErr).map Event.insertProduct) := by
  induction ps generalizing db with
  | nil => simp [seedProducts, successfulProducts]
  | cons d rest ih =>
    simp only [seedProducts, successfulProducts, List.filterMap_cons,
      productInsertOutcome]
    cases hb : buildProductRow d with
    | none => simpa [successfulProducts] using ih db
    | some row =>
      by_cases hp : pErr d
      · simpa [hp, successfulProducts] using ih db
      · simp [hp, ih, successfulProducts]

theorem seedPrices_eq (ps : List StripePriceData)
    (prErr : StripePriceData → Bool) (db : DB) :
    seedPrices ps prErr db =
      ({ db with prices := db.prices ++ successfulPrices ps prErr },
       (successfulPrices ps prErr).map Event.insertPriceRow) := by
  induction ps generalizing db with
  | nil => simp [seedPrices, successfulPrices]
  | cons d rest ih =>
    simp only [seedPrices, successfulPrices, List.filterMap_cons,
      priceInsertOutcome]
    by_cases hp : prErr d
    · simpa [hp, successfulPrices] using ih db
    · simp [hp, ih, successfulPrices]

theorem buildProductRow_id (d : StripeProductData) (row : ProductRow)
    (h : buildProductRow d = some row) : row.id = d.id := by
  cases hi : d.images with
  | none => simp [buildProductRow, hi] at h
  | some imgs =>
    simp only [buildProductRow, hi, Option.some.injEq] at h
    subst h
    rfl

theorem sync_success_eq (env : Option String)
    (products : List StripeProductData) (prices : List StripePriceData)
    (pErr : StripeProductData → Bool) (prErr : StripePriceData → Bool)
    (db0 : DB) (henv : strTruthy env = true)
    (hps : products ≠ []) (hprs : prices ≠ []) :
    sync env products prices pErr prErr db0 =
      { exitCode := 0,
        db := { products := successfulProducts products pErr,
                prices := successfulPrices prices prErr },
        log := Event.fetch :: Event.deletePrices :: Event.deleteProducts ::
               ((successfulProducts products pErr).map Event.insertProduct
                ++ (successfulPrices prices prErr).map Event.insertPriceRow
                ++ [Event.countProducts (successfulProducts products pErr).length,
                    Event.countPrices (successfulPrices prices prErr).length]),
        errorMsg := none,
        productCount := some (successfulProducts products pErr).length,
        priceCount := some (successfulPrices prices prErr).length } := by
  have hps' : products.length > 0 := List.length_pos.mpr hps
  have hprs' : prices.length > 0 := List.length_pos.mpr hprs
  simp [sync, getStripeInstance, henv, cleanup, printStats,
    seedProducts_eq, seedPrices_eq, hps', hprs']

/-- The example product of the spec's end-to-end scenario (§8.6). -/
def exProduct : StripeProductData :=
  { id := "prod_1", description := none, features := some [],
    images := some [], metadata := [], name := "Pro", unit_label := none,
    created := 1700000000 }

/-- The example price of the spec's end-to-end scenario (§8.6). -/
def exPrice : StripePriceData :=
  { id := "price_1", billing_scheme := "per_unit", created := 1700000000,
    currency := "usd", custom_unit_amount := none, livemode := false,
    lookup_key := none, metadata := [], nickname := none,
    product := "prod_1", recurring := none, tiers_mode := none,
    type := "one_time", unit_amount := some 1000,
    unit_amount_decimal := some "1000" }

/-- A price whose unit amount and custom unit amount are present but zero
(a free price), exercising JavaScript truthiness on `0`. -/
def exPriceZero : StripePriceData :=
  { exPrice with
    id := "price_0"
    unit_amount := some 0
    custom_unit_amount := some 0 }

/-- A product whose `images` field is absent from the API payload. -/
def exProductNoImages : StripeProductData :=
  { exProduct with id := "prod_noimg", images := none }

/-- A product whose `features` field is absent but whose `images` field is
present. -/
def exProductNoFeatures : StripeProductData :=
  { exProduct with
    id := "prod_nofeat"
    features := none
    images := some ["http://img"] }

/-- C1: when the credential is truthy (so the run reaches the fetch), an
empty fetched price list makes the run throw the failure naming prices —
even when the product list is also empty, because price emptiness is
checked first — and a non-empty price list with an empty product list
makes it throw the failure naming products; in both cases the trace holds
only the fetch (so no delete and no insert ever ran), the destination
store equals the prior state `db0`, and the process exits with code 1. -/
theorem sync_empty_fetch_aborts (env : Option String)
    (products : List StripeProductData) (prices : List StripePriceData)
    (pErr : StripeProductData → Bool) (prErr : StripePriceData → Bool)
    (db0 : DB) (henv : strTruthy env = true) :
    (prices = [] →
      sync env products prices pErr prErr db0 =
        { exitCode := 1, db := db0, log := [Event.fetch],
          errorMsg := some "No prices found on Stripe",
          productCount := none, priceCount := none }) ∧
    (prices ≠ [] → products = [] →
      sync env products prices pErr prErr db0 =
        { exitCode := 1, db := db0, log := [Event.fetch],
          errorMsg := some "No products found on Stripe",
          productCount := none, priceCount := none }) := by
  constructor
  · intro hp
    subst hp
    simp [sync, getStripeInstance, henv]
  · intro hp hq
    subst hq
    have hp' : prices.length > 0 := List.length_pos.mpr hp
    simp [sync, getStripeInstance, henv, Nat.pos_iff_ne_zero.mp hp']

/-- Witness for C1: at concrete inputs, the empty-prices run (with the
product list also empty) reports the price failure, and the empty-products
run with one fetched price reports the product failure; both leave the
one-row store untouched and exit 1. -/
theorem sync_empty_fetch_aborts_witness :
    (sync (some "sk_test") [] [] (fun _ => false) (fun _ => false)
        { products := [], prices := [] } =
      { exitCode := 1, db := { products := [], prices := [] },
        log := [Event.fetch],
        errorMsg := some "No prices found on Stripe",
        productCount := none, priceCount := none }) ∧
    (sync (some "sk_test") [] [exPrice] (fun _ => false) (fun _ => false)
        { products := [], prices := [] } =
      { exitCode := 1, db := { products := [], prices := [] },
        log := [Event.fetch],
        errorMsg := some "No products found on Stripe",
        productCount := none, priceCount := none }) :=
  ⟨(sync_empty_fetch_aborts (some "sk_test") [] [] (fun _ => false)
      (fun _ => false) { products := [], prices := [] } (by decide)).1 rfl,
   (sync_empty_fetch_aborts (some "sk_test") [] [exPrice] (fun _ => false)
      (fun _ => false) { products := [], prices := [] } (by decide)).2
      (by simp) rfl⟩

/-- C2: when the `STRIPE_SECRET_KEY` environment variable is absent,
`getStripeInstance` throws before anything else happens: the run's trace
is empty (no fetch was issued and no destination-store operation — in
particular no delete — ever ran), the store equals the prior state, the
catch block reports the credential error, and the process exits 1. -/
theorem sync_missing_credential (products : List StripeProductData)
    (prices : List StripePriceData) (pErr : StripeProductData → Bool)
    (prErr : StripePriceData → Bool) (db0 : DB) :
    sync none products prices pErr prErr db0 =
      { exitCode := 1, db := db0, log := [],
        errorMsg := some "STRIPE_SECRET_KEY environment variable not set",
        productCount := none, priceCount := none } := by
  simp [sync, getStripeInstance, strTruthy]

/-- Counterexample to C3 as stated: with one fetched product `exProduct`
and one fetched price `exPrice` referencing it, an insertion oracle that
throws on the product insert but not on the price insert yields a final
store whose price row carries `productId` `"prod_1"` — an identifier that
appears in the fetched product list — while no product record at all was
inserted in the batch. -/
theorem sync_price_reference_cex :
    ¬ (∀ r ∈ (sync (some "sk_test") [exProduct] [exPrice]
          (fun _ => true) (fun _ => false)
          { products := [], prices := [] }).db.prices,
        r.productId ∈ [exProduct].map (fun d => d.id) →
        ∃ p ∈ (sync (some "sk_test") [exProduct] [exPrice]
            (fun _ => true) (fun _ => false)
            { products := [], prices := [] }).db.products,
          p.id = r.productId) := by
  decide

/-- C3 amended: in every run that reaches the insertion phase, all product
insertions happen before any price insertion (the trace splits into a
prefix with no price-insert event and a suffix with no product-insert
event), and every inserted price's `productId` refers to a product record
inserted in the same batch whenever that identifier appears in the fetched
product list *and that product's own insertion succeeded* (its row
construction and its `create` call did not throw). -/
theorem sync_products_before_prices (env : Option String)
    (products : List StripeProductData) (prices : List StripePriceData)
    (pErr : StripeProductData → Bool) (prErr : StripePriceData → Bool)
    (db0 : DB) (henv : strTruthy env = true)
    (hps : products ≠ []) (hprs : prices ≠ []) :
    (∃ a b, (sync env products prices pErr prErr db0).log = a ++ b ∧
      (∀ e ∈ a, ∀ row : PriceRow, e ≠ Event.insertPriceRow row) ∧
      (∀ e ∈ b, ∀ row : ProductRow, e ≠ Event.insertProduct row)) ∧
    (∀ r ∈ (sync env products prices pErr prErr db0).db.prices,
      ∀ d ∈ products, d.id = r.productId →
      productInsertOutcome pErr d ≠ none →
      ∃ p ∈ (sync env products prices pErr prErr db0).db.products,
        p.id = r.productId) := by
  rw [sync_success_eq env products prices pErr prErr db0 henv hps hprs]
  constructor
  · refine ⟨Event.fetch :: Event.deletePrices :: Event.deleteProducts ::
      (successfulProducts products pErr).map Event.insertProduct,
      (successfulPrices prices prErr).map Event.insertPriceRow
        ++ [Event.countProducts (successfulProducts products pErr).length,
            Event.countPrices (successfulPrices prices prErr).length],
      by simp, ?_, ?_⟩
    · intro e he row
      simp only [List.mem_cons, List.mem_map] at he
      rcases he with h | h | h | ⟨p, _, hp⟩ <;> subst_vars <;> simp
    · intro e he row
      simp only [List.mem_append, List.mem_map, List.mem_cons,
        List.not_mem_nil, or_false] at he
      rcases he with ⟨p, _, hp⟩ | h | h <;> subst_vars <;> simp
  · intro r _ d hd hid hout
    rcases ho : productInsertOutcome pErr d with _ | row
    · exact absurd ho hout
    · refine ⟨row, ?_, ?_⟩
      · exact List.mem_filterMap.mpr ⟨d, hd, ho⟩
      · have : buildProductRow d = some row := by
          unfold productInsertOutcome at ho
          rcases hb : buildProductRow d with _ | row'
          · simp [hb] at ho
          · simp only [hb] at ho
            by_cases hp : pErr d
            · simp [hp] at ho
            · simpa [hp] using ho
        rw [buildProductRow_id d row this, hid]

/-- Witness for C3 amended: in the concrete run of the spec's end-to-end
scenario (no insertion errors), the final store's product table holds a
row whose identifier is the inserted price's `productId`. -/
theorem sync_products_before_prices_witness :
    ∃ p ∈ (sync (some "sk_test") [exProduct] [exPrice]
        (fun _ => false) (fun _ => false)
        { products := [], prices := [] }).db.products,
      p.id = (buildPriceRow exPrice).productId := by
  have h := sync_products_before_prices (some "sk_test") [exProduct]
    [exPrice] (fun _ => false) (fun _ => false)
    { products := [], prices := [] } (by decide) (by decide) (by decide)
  exact h.2 (buildPriceRow exPrice) (by decide) exProduct (by decide)
    (by decide) (by decide)

/-- C4: in every run that reaches the insertion phase, the final tables
are exactly the filterMap of the per-record outcomes over the whole
fetched lists — every record is attempted in fetch order, a record whose
insertion throws is caught, logged and skipped, and every remaining record
is still attempted — and the run completes with exit code 0. -/
theorem sync_skips_failing_records (env : Option String)
    (products : List StripeProductData) (prices : List StripePriceData)
    (pErr : StripeProductData → Bool) (prErr : StripePriceData → Bool)
    (db0 : DB) (henv : strTruthy env = true)
    (hps : products ≠ []) (hprs : prices ≠ []) :
    (sync env products prices pErr prErr db0).exitCode = 0 ∧
    (sync env products prices pErr prErr db0).db.products =
      products.filterMap (productInsertOutcome pErr) ∧
    (sync env products prices pErr prErr db0).db.prices =
      prices.filterMap (priceInsertOutcome prErr) := by
  rw [sync_success_eq env products prices pErr prErr db0 henv hps hprs]
  exact ⟨rfl, rfl, rfl⟩

/-- Witness for C4: a concrete run where the first product's row
construction throws (absent `images`) and the first price's insert throws,
yet the remaining product and price are still inserted and the run exits
with code 0. -/
theorem sync_skips_failing_records_witness :
    (sync (some "sk_test") [exProductNoImages, exProduct]
        [exPriceZero, exPrice] (fun _ => false) (fun d => d.id == "price_0")
        { products := [], prices := [] }).exitCode = 0 ∧
    (sync (some "sk_test") [exProductNoImages, exProduct]
        [exPriceZero, exPrice] (fun _ => false) (fun d => d.id == "price_0")
        { products := [], prices := [] }).db.products =
      [exProductNoImages, exProduct].filterMap
        (productInsertOutcome (fun _ => false)) ∧
    (sync (some "sk_test") [exProductNoImages, exProduct]
        [exPriceZero, exPrice] (fun _ => false) (fun d => d.id == "price_0")
        { products := [], prices := [] }).db.prices =
      [exPriceZero, exPrice].filterMap
        (priceInsertOutcome (fun d => d.id == "price_0")) :=
  sync_skips_failing_records (some "sk_test") [exProductNoImages, exProduct]
    [exPriceZero, exPrice] (fun _ => false) (fun d => d.id == "price_0")
    { products := [], prices := [] } (by decide) (by decide) (by decide)

/-- C5: in every run over non-empty fetched lists, the reported product
count is the number of fetched products whose insertion did not throw
(at row construction or at the `create` call), the reported price count is
the number of fetched prices whose insertion did not throw, and the run
exits with code 0. The reported numbers are the destination row counts
queried by `printStats`, which coincide with the success counts because
`cleanup` emptied both tables first. -/
theorem sync_reported_counts (env : Option String)
    (products : List StripeProductData) (prices : List StripePriceData)
    (pErr : StripeProductData → Bool) (prErr : StripePriceData → Bool)
    (db0 : DB) (henv : strTruthy env = true)
    (hps : products ≠ []) (hprs : prices ≠ []) :
    (sync env products prices pErr prErr db0).productCount =
      some (products.countP (fun d => (productInsertOutcome pErr d).isSome)) ∧
    (sync env products prices pErr prErr db0).priceCount =
      some (prices.countP (fun d => (priceInsertOutcome prErr d).isSome)) ∧
    (sync env products prices pErr prErr db0).exitCode = 0 := by
  rw [sync_success_eq env products prices pErr prErr db0 henv hps hprs]
  refine ⟨?_, ?_, rfl⟩ <;>
    simp [successfulProducts, successfulPrices, List.length_filterMap_eq_countP]

/-- Witness for C5: in the spec's end-to-end scenario with one failing
price insert added, the run reports one product and one price — the
success counts, not the fetched counts — and exits 0. -/
theorem sync_reported_counts_witness :
    (sync (some "sk_test") [exProduct] [exPriceZero, exPrice]
        (fun _ => false) (fun d => d.id == "price_0")
        { products := [], prices := [] }).productCount = some 1 ∧
    (sync (some "sk_test") [exProduct] [exPriceZero, exPrice]
        (fun _ => false) (fun d => d.id == "price_0")
        { products := [], prices := [] }).priceCount = some 1 := by
  have h := sync_reported_counts (some "sk_test") [exProduct]
    [exPriceZero, exPrice] (fun _ => false) (fun d => d.id == "price_0")
    { products := [], prices := [] } (by decide) (by decide) (by decide)
  refine ⟨?_, ?_⟩
  · rw [h.1]; decide
  · rw [h.2.1]; decide

/-- C10: in every run that reaches the insertion phase, the final store is
independent of the store's prior contents — `cleanup` deletes every row of
both tables before any insert — so two runs over the same fetched lists
with the same per-record outcomes from any two initial states agree, and
running the sync a second time on its own output changes nothing. -/
theorem sync_initial_state_irrelevant (env : Option String)
    (products : List StripeProductData) (prices : List StripePriceData)
    (pErr : StripeProductData → Bool) (prErr : StripePriceData → Bool)
    (db0 db1 : DB) (henv : strTruthy env = true)
    (hps : products ≠ []) (hprs : prices ≠ []) :
    (sync env products prices pErr prErr db0).db =
      (sync env products prices pErr prErr db1).db ∧
    (sync env products prices pErr prErr
        ((sync env products prices pErr prErr db0).db)).db =
      (sync env products prices pErr prErr db0).db := by
  have h0 := sync_success_eq env products prices pErr prErr db0 henv hps hprs
  have h1 := sync_success_eq env products prices pErr prErr db1 henv hps hprs
  constructor
  · rw [h0, h1]
  · rw [h0]
    rw [sync_success_eq env products prices pErr prErr _ henv hps hprs]

/-- Witness for C10: the concrete end-to-end run from the empty store and
from a store holding a stale product row produce the same final contents,
and re-running on the produced store is a no-op on the contents. -/
theorem sync_initial_state_irrelevant_witness :
    (sync (some "sk_test") [exProduct] [exPrice] (fun _ => false)
        (fun _ => false) { products := [], prices := [] }).db =
      (sync (some "sk_test") [exProduct] [exPrice] (fun _ => false)
        (fun _ => false)
        { products := [{ id := "stale", description := "", features := [],
                         image := "", metadata := [], name := "Stale",
                         unitLabel := none, created := 0 }],
          prices := [] }).db ∧
    (sync (some "sk_test") [exProduct] [exPrice] (fun _ => false)
        (fun _ => false)
        ((sync (some "sk_test") [exProduct] [exPrice] (fun _ => false)
          (fun _ => false) { products := [], prices := [] }).db)).db =
      (sync (some "sk_test") [exProduct] [exPrice] (fun _ => false)
        (fun _ => false) { products := [], prices := [] }).db :=
  sync_initial_state_irrelevant (some "sk_test") [exProduct] [exPrice]
    (fun _ => false) (fun _ => false) { products := [], prices := [] }
    { products := [{ id := "stale", description := "", features := [],
                     image := "", metadata := [], name := "Stale",
                     unitLabel := none, created := 0 }],
      prices := [] } (by decide) (by decide) (by decide)

/-- A fully-populated example product, exercising every field mapping. -/
def exProductFull : StripeProductData :=
  { id := "prod_full", description := some "A plan",
    features := some [{ name := "sso" }, { name := "audit" }],
    images := some ["http://img/a.png", "http://img/b.png"],
    metadata := [("tier", "pro")], name := "Full",
    unit_label := some "seat", created := 1700000001 }

/-- C6: for every fetched product whose `images` field is present (absent
`images` throws and the record is skipped, see the safety theorem), the
inserted row's description is the provider description or the empty string
when absent, its features are the `name` fields of the provider's
feature-object list, its image is the first element of the images list or
the empty string when that list is empty, and its creation value is the
provider epoch-seconds value multiplied by 1000. -/
theorem buildProductRow_field_map (d : StripeProductData)
    (imgs : List String) (h : d.images = some imgs) :
    ∃ row, buildProductRow d = some row ∧
      row.description = d.description.getD "" ∧
      row.features = (d.features.getD []).map (fun a => a.name) ∧
      row.image = imgs.headD "" ∧
      row.created = d.created * 1000 := by
  have hb : buildProductRow d = some
      { id := d.id
        description := if strTruthy d.description then d.description.getD "" else ""
        features := (d.features.getD []).map (fun a => a.name)
        image := if imgs.length > 0 then imgs.headD "" else ""
        metadata := d.metadata
        name := d.name
        unitLabel := d.unit_label
        created := d.created * 1000 } := by
    simp [buildProductRow, h]
  refine ⟨_, hb, ?_, rfl, ?_, rfl⟩
  · cases hd : d.description with
    | none => simp [strTruthy]
    | some s => by_cases hs : s = "" <;> simp [strTruthy, hs]
  · cases imgs <;> simp

/-- Witness for C6: the fully-populated example product maps to a row with
description `"A plan"`, features `["sso", "audit"]`, image the first of
its two image URLs, and created `1700000001 * 1000`. -/
theorem buildProductRow_field_map_witness :
    ∃ row, buildProductRow exProductFull = some row ∧
      row.description = exProductFull.description.getD "" ∧
      row.features = (exProductFull.features.getD []).map (fun a => a.name) ∧
      row.image = ["http://img/a.png", "http://img/b.png"].headD "" ∧
      row.created = exProductFull.created * 1000 :=
  buildProductRow_field_map exProductFull
    ["http://img/a.png", "http://img/b.png"] rfl

/-- Counterexample to C7 as stated: `exPriceZero` has both amount fields
present (`some 0`), yet the built row stores null in both — the script's
conditional-operator guard treats the number `0` as false, so a present
zero amount is not stored as the string conversion of `0`. -/
theorem buildPriceRow_zero_amount_cex :
    exPriceZero.unit_amount = some 0 ∧
    exPriceZero.custom_unit_amount = some 0 ∧
    (buildPriceRow exPriceZero).unitAmount = none ∧
    (buildPriceRow exPriceZero).customUnitAmount = none ∧
    (buildPriceRow exPriceZero).unitAmount ≠ some (toString (0 : Int)) := by
  decide

/-- C7 amended: the inserted row's `customUnitAmount` is the string
conversion of the provider's custom-unit-amount whenever that value is
present and nonzero, and is null when it is absent or zero; likewise for
`unitAmount` — JavaScript truthiness makes a present `0` fall into the
null branch. -/
theorem buildPriceRow_amount_fields (d : StripePriceData) :
    ((buildPriceRow d).customUnitAmount =
      match d.custom_unit_amount with
      | none => none
      | some n => if n = 0 then none else some (toString n)) ∧
    ((buildPriceRow d).unitAmount =
      match d.unit_amount with
      | none => none
      | some n => if n = 0 then none else some (toString n)) := by
  constructor
  · cases hc : d.custom_unit_amount with
    | none => simp [buildPriceRow, intTruthy, hc]
    | some n => by_cases hn : n = 0 <;> simp [buildPriceRow, intTruthy, hc, hn]
  · cases hc : d.unit_amount with
    | none => simp [buildPriceRow, intTruthy, hc]
    | some n => by_cases hn : n = 0 <;> simp [buildPriceRow, intTruthy, hc, hn]

/-- C8: the inserted row's `tiersMode` is a plain string — by type it is
never null — equal to the provider's tiers-mode value when present and to
the empty string when absent; a present-but-empty string falls into the
guard's else branch, which still yields the value itself. -/
theorem buildPriceRow_tiersMode (d : StripePriceData) :
    (buildPriceRow d).tiersMode =
      (match d.tiers_mode with
       | none => ""
       | some s => s) := by
  cases ht : d.tiers_mode with
  | none => simp [buildPriceRow, strTruthy, ht]
  | some s => by_cases hs : s = "" <;> simp [buildPriceRow, strTruthy, ht, hs]

/-- C9: a fetched product with no `images` field throws while building the
row (`data.images.length` on undefined), so the per-record handler catches
the error and `seedProducts` skips the record entirely — the store and the
trace stay unchanged and the product is not inserted with an empty image —
whereas a product with `images` present and `features` absent has its
feature list defaulted to empty and is still built for insertion. -/
theorem seedProducts_missing_images_skips (d d2 : StripeProductData)
    (pErr : StripeProductData → Bool) (db : DB) (imgs : List String)
    (h1 : d.images = none) (h2 : d2.images = some imgs)
    (h3 : d2.features = none) :
    buildProductRow d = none ∧
    seedProducts [d] pErr db = (db, []) ∧
    ∃ row, buildProductRow d2 = some row ∧ row.features = [] := by
  have hb : buildProductRow d = none := by simp [buildProductRow, h1]
  have hb2 : buildProductRow d2 = some
      { id := d2.id
        description := if strTruthy d2.description then d2.description.getD "" else ""
        features := (d2.features.getD []).map (fun a => a.name)
        image := if imgs.length > 0 then imgs.headD "" else ""
        metadata := d2.metadata
        name := d2.name
        unitLabel := d2.unit_label
        created := d2.created * 1000 } := by
    simp [buildProductRow, h2]
  refine ⟨hb, ?_, _, hb2, ?_⟩
  · simp [seedProducts, hb]
  · simp [h3]

/-- Witness for C9: the example product without `images` is skipped by a
one-element seeding run over the empty store, while the example product
without `features` builds a row whose feature list is empty. -/
theorem seedProducts_missing_images_skips_witness :
    buildProductRow exProductNoImages = none ∧
    seedProducts [exProductNoImages] (fun _ => false)
      { products := [], prices := [] } =
      ({ products := [], prices := [] }, []) ∧
    ∃ row, buildProductRow exProductNoFeatures = some row ∧
      row.features = [] :=
  seedProducts_missing_images_skips exProductNoImages exProductNoFeatures
    (fun _ => false) { products := [], prices := [] } ["http://img"]
    rfl rfl rfl
